import Mathlib

/-!
# Electronic-Lock: shallow embedding and verification

Shallow embedding of the Arduino solenoid-lock sketches
(`src/unnamed/part_000`, `src/lock_v1/lock_v1.ino`).  The main model is the
RFID + session-mode sketch ("Improved Version", the second document in
`part_000`): its global variables become the fields of `LockSys`, and each
`checkX`/`handleX`/`unlockDoor`/`lockDoor` routine becomes a pure state
transformer taking the current `millis()` reading as an explicit `now : Nat`.

Modelling conventions:
* Digital levels are `Bool` with `true = HIGH`.  The solenoid pin is read
  back by the code as ground truth (`isDoorUnlocked`), so `solenoid = true`
  means the door is Unlocked.
* `millis()` timestamps are modelled as unbounded `Nat` milliseconds with
  truncated subtraction.  For a monotonically sampled clock this agrees with
  the sketch's unsigned 32-bit `millis() - start >= D` idiom on every elapsed
  interval below the 2^32 ms wrap, which is the regime the timers operate in
  (all durations are at most 2 hours).
* Serial printing and LED writes are output-only and are dropped; where a
  routine's observable branch matters (manual-button handling) the branch
  taken is returned alongside the state as a `ManualOutcome`.
* The blocking manual unlock (`digitalWrite HIGH; delay(UNLOCK_TIME);
  digitalWrite LOW`) is folded to its final solenoid value `false`, with the
  `ManualOutcome.blockingUnlock` tag recording that the timed hold happened.
-/

namespace ElectronicLock

/-- Timing configuration of the RFID sketch (milliseconds). -/
def UNLOCK_TIME : Nat := 10000

/-- Session mode duration (2 hours in ms). -/
def SESSION_DURATION : Nat := 7200000

/-- Enter sleep mode after 1 minute of inactivity (ms). -/
def SLEEP_AFTER_TIME : Nat := 60000

/-- Button debounce time in milliseconds. -/
def DEBOUNCE_DELAY : Nat := 50

/-- A 4-byte RFID card UID, as compared by `checkRFID`. -/
structure UID where
  b0 : Nat
  b1 : Nat
  b2 : Nat
  b3 : Nat
deriving DecidableEq

/-- The static allow-list `authorizedUIDs` from the sketch. -/
def authorizedUIDs : List UID :=
  [⟨0xB3, 0x4A, 0x9E, 0x29⟩, ⟨0x12, 0x34, 0x56, 0x78⟩]

/-- Byte-for-byte comparison of a candidate UID against one allow-list entry
(the inner `for (byte i = 0; i < 4; i++)` loop of `checkRFID`). -/
def uidMatch (c e : UID) : Bool :=
  c.b0 == e.b0 && c.b1 == e.b1 && c.b2 == e.b2 && c.b3 == e.b3

/-- The outer loop of `checkRFID`: the candidate is authorized iff it matches
some entry of `authorizedUIDs`. -/
def authorized (c : UID) : Bool :=
  authorizedUIDs.any (uidMatch c)

/-- The global mutable state of the RFID + session-mode sketch.  Fields are
the sketch's global variables; `solenoid` is the SOLENOID_PIN output level
(`true = HIGH = unlocked`), and the two button fields hold the raw levels
(`true = HIGH = not pressed`, the input is pulled up). -/
structure LockSys where
  solenoid : Bool
  unlockStartTime : Nat
  sessionStartTime : Nat
  lastActivityTime : Nat
  lastDebounceTime : Nat
  unlockTimerActive : Bool
  sessionModeActive : Bool
  unlockedByAuth : Bool
  manualUnlocked : Bool
  sleepEnabled : Bool
  lastButtonState : Bool
  buttonState : Bool
deriving DecidableEq

/-- State after `setup()`: solenoid LOW, all flags at their initializers,
button levels HIGH, timestamps 0. -/
def initState : LockSys :=
  { solenoid := false
    unlockStartTime := 0
    sessionStartTime := 0
    lastActivityTime := 0
    lastDebounceTime := 0
    unlockTimerActive := false
    sessionModeActive := false
    unlockedByAuth := false
    manualUnlocked := false
    sleepEnabled := true
    lastButtonState := true
    buttonState := true }

/-- Function `isDoorUnlocked()`: reads the solenoid pin as ground truth. -/
def isDoorUnlocked (s : LockSys) : Bool :=
  s.solenoid

/-- Function `toggleSessionMode()`: flips `sessionModeActive`; when activating,
records the session start time. -/
def toggleSessionMode (s : LockSys) (now : Nat) : LockSys :=
  if !s.sessionModeActive then
    { s with sessionModeActive := true, sessionStartTime := now }
  else
    { s with sessionModeActive := false }

/-- Function `unlockDoor()` of the RFID sketch: energize the solenoid, arm the unlock
timer, record activity, set `unlockedByAuth`, clear `manualUnlocked`, and
automatically enter session mode when it is not already active. -/
def unlockDoor (s : LockSys) (now : Nat) : LockSys :=
  let s1 := { s with
    solenoid := true
    unlockStartTime := now
    unlockTimerActive := true
    lastActivityTime := now
    unlockedByAuth := true
    manualUnlocked := false }
  if !s1.sessionModeActive then toggleSessionMode s1 now else s1

/-- Function `lockDoor()` of the RFID sketch: de-energize the solenoid, deactivate the
unlock timer, record activity.  (It does not touch `unlockedByAuth`,
`manualUnlocked` or `sessionModeActive`.) -/
def lockDoor (s : LockSys) (now : Nat) : LockSys :=
  { s with
    solenoid := false
    unlockTimerActive := false
    lastActivityTime := now }

/-- Function `checkRFID()`: skipped while the door is unlocked; otherwise, when a card
is present and readable, compare it against the allow-list, unlock on a
match, flash the red LED on a mismatch, and record activity either way. -/
def checkRFID (s : LockSys) (card : Option UID) (now : Nat) : LockSys :=
  if isDoorUnlocked s then
    s
  else
    match card with
    | none => s
    | some uid =>
      if authorized uid then
        let s1 := unlockDoor s now
        { s1 with lastActivityTime := now }
      else
        { s with lastActivityTime := now }

/-- The branch `checkManualUnlock()` takes on one tick:
`ignoredUnlockedDoor` = early return because the door is unlocked;
`noEvent` = no debounced press edge this tick; `blockingUnlock` = the
authenticated/session blocking timed unlock ran; `rejected` = press with no
authentication, red-LED flash only. -/
inductive ManualOutcome where
  | ignoredUnlockedDoor
  | noEvent
  | blockingUnlock
  | rejected
deriving DecidableEq

/-- Function `checkManualUnlock()`: debounce the raw button level `reading`
(`false = LOW = pressed`), and on a debounced press edge either run the
blocking timed unlock (when `(unlockedByAuth && !manualUnlocked) ||
sessionModeActive`) or reject the press.  The blocking hold ends with the
solenoid written LOW, so its net state effect is `solenoid := false` and
`manualUnlocked := true`. -/
def checkManualUnlock (s : LockSys) (reading : Bool) (now : Nat) :
    LockSys × ManualOutcome :=
  if isDoorUnlocked s then
    (s, .ignoredUnlockedDoor)
  else
    let s1 := if reading != s.lastButtonState then
                { s with lastDebounceTime := now }
              else s
    let out :=
      if now - s1.lastDebounceTime > DEBOUNCE_DELAY then
        if reading != s1.buttonState then
          let s2 := { s1 with buttonState := reading }
          if reading = false then
            let s3 := { s2 with lastActivityTime := now }
            if (s3.unlockedByAuth && !s3.manualUnlocked) || s3.sessionModeActive then
              ({ s3 with solenoid := false, manualUnlocked := true },
               ManualOutcome.blockingUnlock)
            else
              (s3, ManualOutcome.rejected)
          else
            (s2, ManualOutcome.noEvent)
        else
          (s1, ManualOutcome.noEvent)
      else
        (s1, ManualOutcome.noEvent)
    ({ out.1 with lastButtonState := reading }, out.2)

/-- Function `handleUnlockTimer()`: while the unlock timer is active, once
`millis() - unlockStartTime >= UNLOCK_TIME` the door is locked via
`lockDoor()` and the timer is deactivated. -/
def handleUnlockTimer (s : LockSys) (now : Nat) : LockSys :=
  if s.unlockTimerActive then
    if now - s.unlockStartTime ≥ UNLOCK_TIME then
      let s1 := lockDoor s now
      { s1 with unlockTimerActive := false }
    else s
  else s

/-- Function `handleSessionTimer()`: while session mode is active, once
`millis() - sessionStartTime >= SESSION_DURATION` the flag is cleared. -/
def handleSessionTimer (s : LockSys) (now : Nat) : LockSys :=
  if s.sessionModeActive then
    if now - s.sessionStartTime ≥ SESSION_DURATION then
      { s with sessionModeActive := false }
    else s
  else s

/-- The guard `unlockTimerActive && millis() - unlockStartTime >= UNLOCK_TIME`
of `handleUnlockTimer()`: whether the unlock timer reads as expired at time
`t`. -/
def unlockTimerExpired (s : LockSys) (t : Nat) : Bool :=
  s.unlockTimerActive && decide (t - s.unlockStartTime ≥ UNLOCK_TIME)

/-- One iteration of the `while (Serial.available() > 0)` body of
`checkSerial()` on the received character `c`: the activity timestamp is
updated for every received character; whitespace is skipped; while the door
is unlocked only `l`/`L` (lock) and `s`/`S` (status print) are handled and
every other character falls through the `continue`; while locked the full
command set `u l s m z` is dispatched. -/
def serialStep (s : LockSys) (c : Char) (now : Nat) : LockSys :=
  let s0 := { s with lastActivityTime := now }
  if c == '\n' || c == '\r' || c == ' ' || c == '\t' then
    s0
  else if isDoorUnlocked s0 then
    if c == 'l' || c == 'L' then lockDoor s0 now
    else s0
  else if c == 'u' || c == 'U' then unlockDoor s0 now
  else if c == 'l' || c == 'L' then lockDoor s0 now
  else if c == 's' || c == 'S' then s0
  else if c == 'm' || c == 'M' then toggleSessionMode s0 now
  else if c == 'z' || c == 'Z' then { s0 with sleepEnabled := !s0.sleepEnabled }
  else s0

/-- Function `checkSerial()`: fold `serialStep` over the buffered characters. -/
def checkSerial (s : LockSys) (buf : List Char) (now : Nat) : LockSys :=
  buf.foldl (fun st c => serialStep st c now) s

/-- The sleep decision of `checkSleep()`: `enterSleepMode()` is invoked iff
sleep is enabled, more than `SLEEP_AFTER_TIME` has elapsed since the last
activity, and the solenoid pin does not read HIGH (door not unlocked). -/
def checkSleep (s : LockSys) (now : Nat) : Bool :=
  if s.sleepEnabled && decide (now - s.lastActivityTime > SLEEP_AFTER_TIME) then
    if s.solenoid then false else true
  else false

/-- State of the minimal `lock_v1` sketch (`src/lock_v1/lock_v1.ino`). -/
structure LockV1 where
  solenoid : Bool
  unlockStartTime : Nat
  unlockTimerActive : Bool
  unlockedByAuth : Bool
  manualUnlocked : Bool
deriving DecidableEq

/-- Function `lockDoor()` of `lock_v1`: de-energize the solenoid and deactivate the
unlock timer; nothing else (that sketch keeps no activity clock). -/
def lockDoorV1 (s : LockV1) : LockV1 :=
  { s with solenoid := false, unlockTimerActive := false }

end ElectronicLock

namespace ElectronicLock

/-- C1.  A scanned credential unlocks the door only on an exact allow-list
match: any candidate matching no entry of `authorizedUIDs` leaves the whole
state unchanged except the activity timestamp (so in particular the lock
state is unchanged), and a matching candidate scanned while Locked drives the
solenoid to Unlocked via `unlockDoor`. -/
theorem checkRFID_unlocks_only_on_match (s : LockSys) (uid : UID) (now : Nat) :
    (authorized uid = false →
      checkRFID s (some uid) now =
        if isDoorUnlocked s then s else { s with lastActivityTime := now }) ∧
    (s.solenoid = false → authorized uid = true →
      (checkRFID s (some uid) now).solenoid = true) := by
  constructor
  · intro hna
    by_cases hu : isDoorUnlocked s <;>
      simp [checkRFID, hna, hu]
  · intro hlk hok
    by_cases hs : s.sessionModeActive <;>
      simp [checkRFID, isDoorUnlocked, hlk, hok, unlockDoor, toggleSessionMode, hs]

/-- C1 witness: the all-zero UID is not on the allow-list and its scan only
touches the activity timestamp; the first allow-list card scanned from the
initial (Locked) state unlocks the door. -/
theorem checkRFID_unlocks_only_on_match_witness :
    authorized ⟨0, 0, 0, 0⟩ = false ∧
    checkRFID initState (some ⟨0, 0, 0, 0⟩) 5 =
      (if isDoorUnlocked initState then initState
       else { initState with lastActivityTime := 5 }) ∧
    (checkRFID initState (some ⟨0xB3, 0x4A, 0x9E, 0x29⟩) 5).solenoid = true :=
  ⟨by decide,
   (checkRFID_unlocks_only_on_match initState ⟨0, 0, 0, 0⟩ 5).1 (by decide),
   (checkRFID_unlocks_only_on_match initState ⟨0xB3, 0x4A, 0x9E, 0x29⟩ 5).2
     (by decide) (by decide)⟩

/-- C2 counterexample: from the initial state, accept a credential at t=0
(`unlockDoor`, which also auto-activates session mode), let the unlock timer
relock the door at t=10000, then feed the debounced button-press / release /
press sequence.  The first debounced press performs the blocking unlock, and
— contrary to the claim — the second debounced press before any new
credential acceptance performs the blocking unlock again (because
`sessionModeActive` is still true), instead of being rejected. -/
theorem second_button_press_not_rejected_cex :
    (checkManualUnlock
        ((checkManualUnlock (handleUnlockTimer (unlockDoor initState 0) 10000)
            false 20000).1)
        false 20100).2 = ManualOutcome.blockingUnlock ∧
    (checkManualUnlock
        ((checkManualUnlock
            ((checkManualUnlock
                ((checkManualUnlock
                    ((checkManualUnlock
                        ((checkManualUnlock
                            (handleUnlockTimer (unlockDoor initState 0) 10000)
                            false 20000).1)
                        false 20100).1)
                    true 30000).1)
                true 30100).1)
            false 30200).1)
        false 30300).2 = ManualOutcome.blockingUnlock ∧
    (checkManualUnlock
        ((checkManualUnlock
            ((checkManualUnlock
                ((checkManualUnlock
                    ((checkManualUnlock
                        ((checkManualUnlock
                            (handleUnlockTimer (unlockDoor initState 0) 10000)
                            false 20000).1)
                        false 20100).1)
                    true 30000).1)
                true 30100).1)
            false 30200).1)
        false 30300).2 ≠ ManualOutcome.rejected := by
  refine ⟨by decide, by decide, by decide⟩

/-- C2 amended: the one-shot manual override holds exactly when session mode
is inactive.  With the door Locked, session mode inactive and
`unlockedByAuth` set, a debounced Button-Pressed event (raw level LOW with a
stable press edge past the debounce window) performs the blocking timed
unlock and sets `manualUnlocked` when `manualUnlocked` is still clear; once
`manualUnlocked` is set (and session mode stays inactive) every further
debounced press is rejected with no lock-state change.  (As stated, the
claim is false: `unlockDoor` auto-activates session mode, so a second press
during the active session repeats the blocking unlock.) -/
theorem manual_override_one_shot_without_session (s : LockSys) (now : Nat)
    (hsol : s.solenoid = false) (hses : s.sessionModeActive = false)
    (huba : s.unlockedByAuth = true)
    (hlb : s.lastButtonState = false) (hbs : s.buttonState = true)
    (hdb : now - s.lastDebounceTime > DEBOUNCE_DELAY) :
    (s.manualUnlocked = false →
      (checkManualUnlock s false now).2 = ManualOutcome.blockingUnlock ∧
      (checkManualUnlock s false now).1.manualUnlocked = true ∧
      (checkManualUnlock s false now).1.solenoid = false) ∧
    (s.manualUnlocked = true →
      (checkManualUnlock s false now).2 = ManualOutcome.rejected ∧
      (checkManualUnlock s false now).1.solenoid = s.solenoid ∧
      (checkManualUnlock s false now).1.manualUnlocked = true) := by
  constructor
  · intro hmu
    simp [checkManualUnlock, isDoorUnlocked, hsol, hses, huba, hlb, hbs, hdb, hmu]
  · intro hmu
    simp [checkManualUnlock, isDoorUnlocked, hsol, hses, huba, hlb, hbs, hdb, hmu]

/-- C2 amended witness: with session mode inactive and `unlockedByAuth` set,
a fresh debounced press performs the blocking unlock, and the same press
with `manualUnlocked` already set is rejected. -/
theorem manual_override_one_shot_without_session_witness :
    (checkManualUnlock
        { initState with unlockedByAuth := true,
                         lastButtonState := false, buttonState := true }
        false 100).2 = ManualOutcome.blockingUnlock ∧
    (checkManualUnlock
        { initState with unlockedByAuth := true, manualUnlocked := true,
                         lastButtonState := false, buttonState := true }
        false 100).2 = ManualOutcome.rejected :=
  ⟨((manual_override_one_shot_without_session
      { initState with unlockedByAuth := true,
                       lastButtonState := false, buttonState := true }
      100 rfl rfl rfl rfl rfl (by decide)).1 rfl).1,
   ((manual_override_one_shot_without_session
      { initState with unlockedByAuth := true, manualUnlocked := true,
                       lastButtonState := false, buttonState := true }
      100 rfl rfl rfl rfl rfl (by decide)).2 rfl).1⟩

/-- C3 counterexample: with the unlock timer armed at t=0 and both auth
flags set, the expiry tick at t=10000 relocks the door and deactivates the
timer, but leaves `unlockedByAuth` and `manualUnlocked` set — the claim says
both are cleared to false as part of the re-lock. -/
theorem relock_does_not_clear_auth_flags_cex :
    (handleUnlockTimer
        { initState with solenoid := true, unlockTimerActive := true,
                         unlockedByAuth := true, manualUnlocked := true }
        10000).solenoid = false ∧
    (handleUnlockTimer
        { initState with solenoid := true, unlockTimerActive := true,
                         unlockedByAuth := true, manualUnlocked := true }
        10000).unlockTimerActive = false ∧
    (handleUnlockTimer
        { initState with solenoid := true, unlockTimerActive := true,
                         unlockedByAuth := true, manualUnlocked := true }
        10000).unlockedByAuth = true ∧
    (handleUnlockTimer
        { initState with solenoid := true, unlockTimerActive := true,
                         unlockedByAuth := true, manualUnlocked := true }
        10000).manualUnlocked = true := by
  refine ⟨by decide, by decide, by decide, by decide⟩

/-- C3 amended: on unlock-timer expiry the actuator is released to Locked,
the unlock timer is deactivated, and the activity timestamp is refreshed,
while `unlockedByAuth` and `manualUnlocked` are left unchanged (they persist
until the next credential acceptance; nothing in the sketch ever resets
`unlockedByAuth` to false). -/
theorem handleUnlockTimer_expiry_relocks (s : LockSys) (now : Nat)
    (ha : s.unlockTimerActive = true)
    (he : now - s.unlockStartTime ≥ UNLOCK_TIME) :
    handleUnlockTimer s now =
      { s with solenoid := false, unlockTimerActive := false,
               lastActivityTime := now } := by
  simp [handleUnlockTimer, lockDoor, ha, he]

/-- C3 amended witness: a concrete expiry tick. -/
theorem handleUnlockTimer_expiry_relocks_witness :
    handleUnlockTimer
        { initState with solenoid := true, unlockTimerActive := true,
                         unlockedByAuth := true }
        12345 =
      { initState with solenoid := false, unlockTimerActive := false,
                       unlockedByAuth := true, lastActivityTime := 12345 } :=
  handleUnlockTimer_expiry_relocks
    { initState with solenoid := true, unlockTimerActive := true,
                     unlockedByAuth := true }
    12345 rfl (by decide)

/-- C4.  While the door is Unlocked, `checkManualUnlock` returns through its
early guard: the state is unchanged (actuator, AuthContext, debounce
bookkeeping — everything) for every raw button level, whatever the values of
`unlockedByAuth`, `manualUnlocked` and `sessionModeActive`. -/
theorem button_ignored_while_unlocked (s : LockSys) (reading : Bool) (now : Nat)
    (h : s.solenoid = true) :
    checkManualUnlock s reading now = (s, ManualOutcome.ignoredUnlockedDoor) := by
  simp [checkManualUnlock, isDoorUnlocked, h]

/-- C4 witness: a pressed-button tick on a concrete Unlocked state with all
AuthContext flags set changes nothing. -/
theorem button_ignored_while_unlocked_witness :
    checkManualUnlock
        { initState with solenoid := true, unlockedByAuth := true,
                         manualUnlocked := true, sessionModeActive := true }
        false 77 =
      ({ initState with solenoid := true, unlockedByAuth := true,
                        manualUnlocked := true, sessionModeActive := true },
       ManualOutcome.ignoredUnlockedDoor) :=
  button_ignored_while_unlocked _ false 77 rfl

/-- C5.  The sleep decision of `checkSleep` is false whenever the solenoid
reads unlocked, for every tick time and hence every elapsed inactivity
duration, and whatever the sleep-enable flag. -/
theorem no_sleep_while_unlocked (s : LockSys) (now : Nat)
    (h : s.solenoid = true) :
    checkSleep s now = false := by
  simp [checkSleep, h]

/-- C5 witness: an Unlocked state with sleep enabled and far more than the
inactivity threshold elapsed still does not sleep. -/
theorem no_sleep_while_unlocked_witness :
    checkSleep { initState with solenoid := true } 99999999 = false :=
  no_sleep_while_unlocked { initState with solenoid := true } 99999999 rfl

/-- C6 counterexample: `checkSerial` stamps `lastActivityTime = millis()`
for every received character before the unlocked-door gate, so a `u` sent
while Unlocked is not a strict no-op on the state: the activity timestamp
changes (the lock state and flags do not). -/
theorem serial_u_while_unlocked_touches_activity_cex :
    serialStep { initState with solenoid := true } 'u' 1 ≠
      { initState with solenoid := true } ∧
    (serialStep { initState with solenoid := true } 'u' 1).lastActivityTime = 1 ∧
    (serialStep { initState with solenoid := true } 'u' 1).solenoid = true := by
  refine ⟨by decide, by decide, by decide⟩

/-- C6 amended: while the door is Unlocked the serial surface accepts only
the lock command (`l`/`L`, which runs `lockDoor`) and the status command
(`s`/`S`, which only prints); every other character — including `u`/`U`,
`m`/`M`, `z`/`Z` — leaves the state unchanged except for the activity
timestamp, which is refreshed for every received character. -/
theorem serial_unlocked_accepts_only_lock_status (s : LockSys) (c : Char)
    (now : Nat) (h : s.solenoid = true) :
    ((c = 'l' ∨ c = 'L') → serialStep s c now = lockDoor s now) ∧
    (¬(c = 'l' ∨ c = 'L') →
      serialStep s c now = { s with lastActivityTime := now }) := by
  constructor
  · rintro (rfl | rfl) <;> simp [serialStep, isDoorUnlocked, lockDoor, h]
  · intro hc
    push_neg at hc
    by_cases hw : c = '\n' ∨ c = '\r' ∨ c = ' ' ∨ c = '\t'
    · rcases hw with rfl | rfl | rfl | rfl <;> simp [serialStep]
    · push_neg at hw
      simp [serialStep, isDoorUnlocked, h, hc.1, hc.2,
            hw.1, hw.2.1, hw.2.2.1, hw.2.2.2]

/-- C6 amended witness: while Unlocked, `u` only refreshes the activity
timestamp, `z` likewise (sleep flag untouched), and `l` locks the door. -/
theorem serial_unlocked_accepts_only_lock_status_witness :
    serialStep { initState with solenoid := true } 'u' 7 =
      { initState with solenoid := true, lastActivityTime := 7 } ∧
    serialStep { initState with solenoid := true } 'z' 7 =
      { initState with solenoid := true, lastActivityTime := 7 } ∧
    serialStep { initState with solenoid := true } 'l' 7 =
      lockDoor { initState with solenoid := true } 7 :=
  ⟨(serial_unlocked_accepts_only_lock_status
      { initState with solenoid := true } 'u' 7 rfl).2 (by decide),
   (serial_unlocked_accepts_only_lock_status
      { initState with solenoid := true } 'z' 7 rfl).2 (by decide),
   (serial_unlocked_accepts_only_lock_status
      { initState with solenoid := true } 'l' 7 rfl).1 (Or.inl rfl)⟩

/-- C7.  A serial `l`/`L` received while Unlocked locks immediately: the
solenoid is driven LOW and the unlock timer deactivated, for every value of
`unlockStartTime` and `unlockTimerActive` — i.e. however much time remains
on the timer. -/
theorem serial_lock_immediate_while_unlocked (s : LockSys) (c : Char)
    (now : Nat) (h : s.solenoid = true) (hc : c = 'l' ∨ c = 'L') :
    (serialStep s c now).solenoid = false ∧
    (serialStep s c now).unlockTimerActive = false := by
  rcases hc with rfl | rfl <;>
    simp [serialStep, isDoorUnlocked, lockDoor, h]

/-- C7 witness: `l` sent the very instant the timer was armed (full duration
remaining) still locks at once and cancels the timer. -/
theorem serial_lock_immediate_while_unlocked_witness :
    (serialStep
        { initState with solenoid := true, unlockTimerActive := true,
                         unlockStartTime := 500 }
        'l' 500).solenoid = false ∧
    (serialStep
        { initState with solenoid := true, unlockTimerActive := true,
                         unlockStartTime := 500 }
        'l' 500).unlockTimerActive = false :=
  serial_lock_immediate_while_unlocked
    { initState with solenoid := true, unlockTimerActive := true,
                     unlockStartTime := 500 }
    'l' 500 rfl (Or.inl rfl)

/-- C8.  For the unlock timer armed at time `T` (by `unlockDoor`, which sets
`unlockStartTime := T` and `unlockTimerActive := true`) with duration
`UNLOCK_TIME`: the expiry guard of `handleUnlockTimer` reads false at every
`t < T + UNLOCK_TIME` and true at every `t ≥ T + UNLOCK_TIME`; and after a
cancel (`lockDoor`, which clears `unlockTimerActive`) the guard reads false
at every time until the timer is re-armed. -/
theorem unlock_timer_expiry_boundary (s : LockSys) (T t : Nat) :
    (t < T + UNLOCK_TIME →
      unlockTimerExpired (unlockDoor s T) t = false) ∧
    (t ≥ T + UNLOCK_TIME →
      unlockTimerExpired (unlockDoor s T) t = true) ∧
    unlockTimerExpired (lockDoor s T) t = false := by
  by_cases hm : s.sessionModeActive <;>
    refine ⟨fun hlt => ?_, fun hge => ?_, ?_⟩ <;>
      simp [unlockDoor, toggleSessionMode, hm, unlockTimerExpired, lockDoor,
            UNLOCK_TIME] at * <;>
      omega

/-- C8 witness: armed at T=100, the guard reads false at t=5000 (< 10100),
true at t=10100, and false at t=999999 after a cancel. -/
theorem unlock_timer_expiry_boundary_witness :
    unlockTimerExpired (unlockDoor initState 100) 5000 = false ∧
    unlockTimerExpired (unlockDoor initState 100) 10100 = true ∧
    unlockTimerExpired (lockDoor initState 100) 999999 = false :=
  ⟨(unlock_timer_expiry_boundary initState 100 5000).1 (by decide),
   (unlock_timer_expiry_boundary initState 100 10100).2.1 (by decide),
   (unlock_timer_expiry_boundary initState 100 999999).2.2⟩

/-- C9.  Session-timer expiry clears `sessionModeActive` and changes nothing
else: the resulting state is exactly the old one with `sessionModeActive :=
false`, so the solenoid, unlock timer, `unlockedByAuth` and `manualUnlocked`
are all untouched. -/
theorem session_expiry_clears_only_session_flag (s : LockSys) (now : Nat)
    (ha : s.sessionModeActive = true)
    (he : now - s.sessionStartTime ≥ SESSION_DURATION) :
    handleSessionTimer s now = { s with sessionModeActive := false } := by
  simp [handleSessionTimer, ha, he]

/-- C9 witness: a concrete session expiry while Unlocked with the unlock
timer armed leaves everything but the session flag alone. -/
theorem session_expiry_clears_only_session_flag_witness :
    handleSessionTimer
        { initState with solenoid := true, unlockTimerActive := true,
                         sessionModeActive := true, unlockedByAuth := true }
        7200000 =
      { initState with solenoid := true, unlockTimerActive := true,
                       sessionModeActive := false, unlockedByAuth := true } :=
  session_expiry_clears_only_session_flag
    { initState with solenoid := true, unlockTimerActive := true,
                     sessionModeActive := true, unlockedByAuth := true }
    7200000 rfl (by decide)

/-- C10.  `lockDoor` is total and idempotent: from every state and at every
tick time it yields solenoid LOW with the unlock timer inactive, and
applying it again at the same tick is a no-op; the `lock_v1` variant (which
keeps no activity clock) is unconditionally idempotent. -/
theorem lockDoor_total_idempotent (s : LockSys) (v : LockV1) (now : Nat) :
    (lockDoor s now).solenoid = false ∧
    (lockDoor s now).unlockTimerActive = false ∧
    lockDoor (lockDoor s now) now = lockDoor s now ∧
    (lockDoorV1 v).solenoid = false ∧
    (lockDoorV1 v).unlockTimerActive = false ∧
    lockDoorV1 (lockDoorV1 v) = lockDoorV1 v := by
  refine ⟨rfl, rfl, rfl, rfl, rfl, rfl⟩

end ElectronicLock
